import Mathlib

/-
Verification of the OpenClaw Desktop Assistant core (conversation engine,
execution dispatcher, approval workflow) against its specification.

Shallow embedding of the JavaScript sources:
  - src/services/llm.js          (LLMService: sendMessage, switchToLocal, _localInference, _executeSetup)
  - src/components/AgentPanel    (handleRun, the execution dispatcher)
  - src/components/LogsPanel     (handleApproval, ApprovalQueue, pendingCount)
  - src/utils/executionOutput.js (output builders, detectAgentType)

External collaborators (the Tauri/Rust persistence gateway, the remote HTTP
inference APIs, and the shell commands) are modelled by explicit outcome
parameters (Except values / RemoteOutcome); asynchronous awaits are sequenced
as pure state passing.  Timestamps produced by new Date().toLocaleString()
are passed in as a string parameter.  JavaScript string operations are
modelled over the character list of the string (ASCII-faithful
toLowerCase/trim/includes); JS truthiness of optional strings is modelled by
jsTruthy/jsOrStr.
-/

/-- JS `String.prototype.toLowerCase` (ASCII-faithful model, per character). -/
def jsToLower (s : String) : String := ⟨s.data.map Char.toLower⟩

/-- JS `String.prototype.trim`: drop whitespace from both ends. -/
def jsTrim (s : String) : String :=
  ⟨((s.data.dropWhile (·.isWhitespace)).reverse.dropWhile (·.isWhitespace)).reverse⟩

/-- Boolean prefix test on character lists (structurally recursive). -/
def listIsPrefix : List Char → List Char → Bool
  | [], _ => true
  | _ :: _, [] => false
  | a :: as, b :: bs => a == b && listIsPrefix as bs

/-- Boolean contiguous-sublist test on character lists. -/
def listHasInfix (p : List Char) : List Char → Bool
  | [] => p.isEmpty
  | c :: rest => listIsPrefix p (c :: rest) || listHasInfix p rest

/-- JS `String.prototype.includes`: substring containment. -/
def strIncludes (s pat : String) : Bool := listHasInfix pat.data s.data

/-- JS truthiness of a nullable string (`null`/`undefined`/`""` are falsy). -/
def jsTruthy : Option String → Bool
  | none => false
  | some s => !(s == "")

/-- JS `x || d` for a nullable string `x` and string default `d`. -/
def jsOrStr (o : Option String) (d : String) : String :=
  match o with
  | none => d
  | some s => if s == "" then d else s

/-- A chat message (role is "user" or "assistant"). -/
structure Message where
  role : String
  content : String
deriving DecidableEq

/-- A persisted execution-log row, as passed to `addLog(agentId, action, status, output, error)`. -/
structure LogEntry where
  agent_id : String
  action : String
  status : String
  output : String
  error : String
deriving DecidableEq

/-- An agent record (AgentConfig).  `tools` is the comma-separated string the
source stores and tests with `.includes("browser")`.  The chat-drafted
templates in llm.js carry no id; they use `id := ""`. -/
structure Agent where
  id : String
  name : String
  role : String
  goal : String
  tools : String
  schedule : String
  sandbox : Bool
deriving DecidableEq

/-- A request to the gateway `addApproval(agentId, actionType, contentPreview)`. -/
structure ApprovalReq where
  agent_id : String
  action_type : String
  content_preview : String
deriving DecidableEq

/-- A persisted approval-queue row as read back by `getApprovals()`. -/
structure ApprovalItem where
  id : Nat
  agent_id : String
  action_type : String
  content_preview : String
  status : String
deriving DecidableEq

/-- From executionOutput.js `buildTrendingOutput` (the `now` argument models
`new Date().toLocaleString()`). -/
def buildTrendingOutput (now : String) : String :=
  "✅ EXECUTION COMPLETE\n━━━━━━━━━━━━━━━━━━━━\n🔍 Step 1: Searched trending topics on OpenClaw\n   → Found: \"OpenClaw v2.0 Desktop App Launch\"\n   → Engagement score: 87/100\n\n✍️ Step 2: Generated LinkedIn post\n   → Title: \"The Future of No-Code Automation is Here 🦞\"\n   → Length: 247 words\n   → Hashtags: #openclaw #automation #opensource\n\n🌐 Step 3: Browser automation — Posted to LinkedIn\n   → Status: Published successfully\n   → URL: linkedin.com/posts/openclaw-desktop-launch\n   → Timestamp: " ++ now ++ "\n\n🔄 Next scheduled run: Tomorrow at 9:00 AM"

/-- From executionOutput.js `buildHashtagOutput`. -/
def buildHashtagOutput (now : String) : String :=
  "✅ EXECUTION COMPLETE\n━━━━━━━━━━━━━━━━━━━━\n🔎 Step 1: Searched LinkedIn for #openclaw posts\n   → Found 3 matching posts\n\n💬 Step 2: Commented on posts via browser automation\n   → Post 1: \"Check out github.com/openclaw — 🦞 automate tasks without CLI!\"\n   → Post 2: \"Try the OpenClaw Desktop App for no-code automation! 🚀\"\n   → Post 3: \"New to automation? OpenClaw Desktop makes it easy 🎯\"\n\n📊 Step 3: Results logged\n   → Comments posted: 3\n   → Timestamp: " ++ now ++ "\n\n🔄 Next scheduled run: In 1 hour"

/-- From executionOutput.js `buildGenericOutput(action)`. -/
def buildGenericOutput (now action : String) : String :=
  "✅ EXECUTION COMPLETE\n━━━━━━━━━━━━━━━━━━━━\n🌐 Browser automation executed successfully\n   → Action: " ++ action ++ "\n   → Timestamp: " ++ now

/-- From executionOutput.js `buildSandboxOutput(name, goal)`. -/
def buildSandboxOutput (now name goal : String) : String :=
  "🧪 SANDBOX DRY-RUN\n━━━━━━━━━━━━━━━━━━\nAgent: " ++ name ++ "\nGoal: " ++ goal ++ "\n\n🔍 Simulated Step 1: Analyzed task requirements\n✍️ Simulated Step 2: Would execute browser actions\n⏭️ Simulated Step 3: Would post/comment\n\n⚠️ No real actions taken — sandbox mode active\nTimestamp: " ++ now

/-- From executionOutput.js `buildAutoExecuteOutput(agent)`. -/
def buildAutoExecuteOutput (now : String) (agent : Agent) : String :=
  "✅ AUTO-EXECUTED\n━━━━━━━━━━━━━━━━\nAgent: " ++ agent.name ++ "\nRole: " ++ agent.role ++ "\n\n🔍 Step 1: Processed task — " ++ agent.goal ++ "\n⚡ Step 2: Executed successfully\n📊 Step 3: Results logged\n\nTimestamp: " ++ now

/-- From executionOutput.js `detectAgentType(text)`.  A JS caller may pass
`null`/`undefined` (modelled as `none`); the source guards with `(text || "")`. -/
def detectAgentType (text : Option String) : String :=
  let lower := jsToLower (text.getD "")
  if strIncludes lower "trending" then "trending"
  else if strIncludes lower "hashtag" || strIncludes lower "#openclaw" then "hashtag"
  else "generic"

/-- The in-memory LLMService state (llm.js constructor fields used by the
conversation engine; the UI-callback fields are omitted).  `_pendingSetup`
and `_lastSuggestedAgent` are the multi-turn conversation state. -/
structure LLMState where
  mode : String
  apiKey : Option String
  model : Option String
  conversationHistory : List Message
  pendingSetup : Bool
  lastSuggestedAgent : Option Agent
deriving DecidableEq

/-- From llm.js `getMode()`. -/
def getMode (s : LLMState) : String := s.mode

/-- Outcomes of the external shell collaborators consumed by `_executeSetup`
(`Except.error` models a thrown exception; for `checkNodeInstalled` and
`installOpenClaw` the `Bool` is the `success` flag of a completed command). -/
structure SetupEnv where
  os : String
  nodeCheck : Except String Bool
  installRes : Except String Bool
  onboardRes : Except String Unit
  gatewayRes : Except String Unit

/-- Collaborator outcomes consumed by `_localInference`: the setup-sequence
shell outcomes plus the result of the gateway call `createAgent`. -/
structure LocalEnv where
  setup : SetupEnv
  createRes : Except String Unit

/-- Outcome of one remote inference HTTP call (`_callOpenAI`/`_callAnthropic`):
`ok reply` for a 2xx response, `fail e` for a thrown error (non-2xx status or
network failure). -/
inductive RemoteOutcome where
  | ok (reply : String)
  | fail (err : String)
deriving DecidableEq

/-- Result of one conversation turn or one local-inference call: the reply,
the updated service state, and the persisted side effects (log rows, approval
requests, created agents), in order of issue. -/
structure ChatResult where
  reply : String
  state : LLMState
  logs : List LogEntry
  approvals : List ApprovalReq
  agents : List Agent
deriving DecidableEq

/-- The affirmation vocabulary of `_localInference` rule 1 (setup confirmation). -/
def affirmMatch (msg : String) : Bool :=
  strIncludes msg "yes" || strIncludes msg "sure" || strIncludes msg "ok" ||
  strIncludes msg "go ahead" || strIncludes msg "start" || strIncludes msg "set it up"

/-- The setup-request vocabulary of `_localInference` rule 2. -/
def setupReqMatch (msg : String) : Bool :=
  strIncludes msg "setup" || strIncludes msg "install" || strIncludes msg "get started"

/-- The agent-creation confirmation vocabulary of `_localInference` rule 3. -/
def confirmMatch (msg : String) : Bool :=
  strIncludes msg "yes" || strIncludes msg "create" || strIncludes msg "confirm" ||
  strIncludes msg "deploy" || strIncludes msg "do it"

/-- The generic agent-creation request of `_localInference` rule 4. -/
def createAgentMatch (msg : String) : Bool :=
  strIncludes msg "create" && (strIncludes msg "agent" || strIncludes msg "automation")

/-- The trending vocabulary of `_localInference` rule 5. -/
def trendingMatch (msg : String) : Bool :=
  strIncludes msg "trending" || strIncludes msg "linkedin post" || strIncludes msg "trend"

/-- The hashtag vocabulary of `_localInference` rule 6. -/
def hashtagMatch (msg : String) : Bool :=
  strIncludes msg "hashtag" || strIncludes msg "#openclaw" || strIncludes msg "comment"

/-- The scheduling vocabulary of `_localInference` rule 7. -/
def scheduleMatch (msg : String) : Bool :=
  strIncludes msg "schedule" || strIncludes msg "cron" || strIncludes msg "timer"

/-- The sandbox vocabulary of `_localInference` rule 8. -/
def sandboxMatch (msg : String) : Bool :=
  strIncludes msg "sandbox" || strIncludes msg "dry run" || strIncludes msg "test mode"

/-- The help vocabulary of `_localInference` rule 9. -/
def helpMatch (msg : String) : Bool :=
  strIncludes msg "help" || strIncludes msg "what can you do" || strIncludes msg "commands"

/-- The status vocabulary of `_localInference` rule 10. -/
def statusMatch (msg : String) : Bool :=
  strIncludes msg "status" || strIncludes msg "health" || strIncludes msg "check"

/-- The greeting / very-short-message guard of `_localInference` rule 11. -/
def greetingMatch (msg : String) : Bool :=
  strIncludes msg "hello" || strIncludes msg "hi " || msg == "hi" ||
  (decide (msg.length < 5) && !(strIncludes msg "yes") && !(strIncludes msg "ok"))

/-- The trending-topics agent template drafted by `_localInference` rule 5. -/
def trendingTemplate : Agent :=
  { id := ""
    name := "Trending Topics Agent"
    role := "Content Creator"
    goal := "Search trending OpenClaw topics, write LinkedIn post, wait for approval, post via browser automation"
    tools := "browser,cron"
    schedule := "0 9 * * *"
    sandbox := false }

/-- The hashtag-promoter agent template drafted by `_localInference` rule 6. -/
def hashtagTemplate : Agent :=
  { id := ""
    name := "Hashtag Promoter Agent"
    role := "Community Promoter"
    goal := "Search LinkedIn for #openclaw posts, comment promoting GitHub repo and desktop app"
    tools := "browser,cron"
    schedule := "0 */1 * * *"
    sandbox := false }

/-- `JSON.stringify` of a drafted agent object (the llm.js templates list the
keys name, role, goal, tools, schedule, sandbox in this order; embedded-quote
escaping is not modelled). -/
def agentJson (a : Agent) : String :=
  "\x7b\"name\":\"" ++ a.name ++ "\",\"role\":\"" ++ a.role ++ "\",\"goal\":\"" ++ a.goal ++
  "\",\"tools\":\"" ++ a.tools ++ "\",\"schedule\":\"" ++ a.schedule ++ "\",\"sandbox\":" ++
  (if a.sandbox then "true" else "false") ++ "\x7d"

/-- The setup-preview reply of `_localInference` rule 2. -/
def setupPreviewReply : String :=
  "🦞 Let\x27s get OpenClaw set up on your system! Here\x27s what I\x27ll do:\n\n1. **Check your system** — Detect OS and verify Node.js is installed\n2. **Install OpenClaw** — Run `npm install -g openclaw@latest` in the background\n3. **Run onboarding** — Execute `openclaw onboard` to configure everything\n4. **Start the Gateway** — Launch the OpenClaw gateway service\n\nWould you like me to start the setup process? Just say **\"Yes\"** to begin!\n\n💡 Tip: You can also go to **Settings** to enter an API key for a more powerful AI model."

/-- The success summary returned by `_localInference` rule 3 after `createAgent` succeeds. -/
def agentCreatedReply (agent : Agent) : String :=
  "✅ **Agent Created Successfully!**\n\n🤖 **" ++ agent.name ++ "** is now ready.\n- Role: " ++ agent.role ++ "\n- Schedule: `" ++ agent.schedule ++ "`\n- Sandbox: " ++ (if agent.sandbox then "Enabled 🧪" else "Disabled") ++ "\n\nYou can view and manage it in the **Agents** tab. Head over there to run it, or tell me if you\x27d like to make any changes!"

/-- The guided agent-creation prompt of `_localInference` rule 4. -/
def agentGuideReply : String :=
  "🤖 Let\x27s create a new agent! I\x27ll need a few details:\n\n1. **Agent Name** — What should we call this agent?\n2. **Role** — e.g., \"Content Creator\", \"Community Manager\", \"Monitor\"\n3. **Goal** — What should this agent accomplish?\n4. **Tools** — Which tools does it need? (browser, cron, etc.)\n5. **Schedule** — How often should it run? (e.g., \"daily at 9am\", \"every hour\")\n6. **Sandbox Mode** — Should we test in dry-run mode first?\n\nYou can provide these details here in chat, or head over to the **Agents** tab to use the visual form!"

/-- The trending-agent preview of `_localInference` rule 5. -/
def trendingReply : String :=
  "📈 Great idea! I\x27ll help you create a **Trending Topics Agent**. Here\x27s the plan:\n\n**Agent: Trending OpenClaw Topics → LinkedIn Post**\n- 🔍 Search for trending OpenClaw topics\n- ✍️ Write a compelling LinkedIn post\n- ✋ Wait for your approval in the app\n- 🌐 Post via browser automation\n- 🔄 Runs daily at 9:00 AM\n\n**Config Preview:**\n```json\n\x7b\n  \"name\": \"Trending Topics Agent\",\n  \"role\": \"Content Creator\",\n  \"goal\": \"Search trending OpenClaw topics, write LinkedIn post\",\n  \"tools\": [\"browser\", \"cron\"],\n  \"schedule\": \"0 9 * * *\",\n  \"requireApproval\": true\n\x7d\n```\n\nWould you like me to create this agent? Say **\"Yes, create it\"** to deploy!"

/-- The hashtag-agent preview of `_localInference` rule 6. -/
def hashtagReply : String :=
  "#️⃣ I\x27ll set up a **Hashtag Comment Agent** for you!\n\n**Agent: #openclaw Promoter**\n- 🔎 Search LinkedIn for posts with #openclaw\n- 💬 Comment promoting your GitHub repo & desktop app\n- 🔄 Runs every hour automatically\n- 📊 Logs all executions\n\n**Config Preview:**\n```json\n\x7b\n  \"name\": \"Hashtag Promoter\",\n  \"role\": \"Community Promoter\",\n  \"goal\": \"Search #openclaw, comment & promote desktop app\",\n  \"tools\": [\"browser\", \"cron\"],\n  \"schedule\": \"0 */1 * * *\",\n  \"requireApproval\": false\n\x7d\n```\n\nShall I create this agent? Say **\"Yes, create it\"** to deploy! You can enable sandbox mode later."

/-- The cron cheat-sheet reply of `_localInference` rule 7. -/
def scheduleReply : String :=
  "⏰ I can help you manage schedules! Here are your options:\n\n- **View Schedules** — Go to the Schedules tab to see all active jobs\n- **Create Schedule** — Tell me what you want to run and when\n- **Cron Expressions** — I can translate plain English to cron:\n  - \"Every day at 9am\" → `0 9 * * *`\n  - \"Every hour\" → `0 */1 * * *`\n  - \"Every Monday at 8am\" → `0 8 * * 1`\n  - \"Every 30 minutes\" → `*/30 * * * *`\n\nWhat would you like to schedule?"

/-- The sandbox explanation of `_localInference` rule 8. -/
def sandboxReply : String :=
  "🧪 **Sandbox Mode** keeps you safe!\n\nWhen sandbox mode is enabled for an agent:\n- ✅ All actions are simulated (no real posting/commenting)\n- ✅ Browser automation runs but doesn\x27t submit forms\n- ✅ Full logs are generated for review\n- ✅ You can verify everything works before going live\n\nTo enable sandbox mode:\n1. Go to **Agents** tab\n2. Toggle **Sandbox Mode** on for any agent\n3. Run the agent to test\n\nOr tell me which agent you\x27d like to put in sandbox mode!"

/-- The capability list of `_localInference` rule 9. -/
def helpReply : String :=
  "🦞 Hi! I\x27m your **OpenClaw Desktop Assistant**. Here\x27s what I can help with:\n\n🔧 **Setup & Config**\n- \"Setup OpenClaw\" — Install and configure everything\n- \"Check status\" — View system and gateway status\n\n🤖 **Agent Management**\n- \"Create an agent\" — Build a new automation agent\n- \"Create trending agent\" — Set up LinkedIn trending topics agent\n- \"Create hashtag agent\" — Set up #openclaw comment agent\n\n⏰ **Scheduling**\n- \"Schedule a task\" — Set up cron jobs\n- \"Show schedules\" — View active schedules\n\n🧪 **Safety**\n- \"Enable sandbox mode\" — Test agents safely\n- \"Show approval queue\" — Review pending actions\n\n⚙️ **Settings**\n- \"Switch to OpenAI\" — Configure your API key\n- \"Use local model\" — Switch back to Phi-3\n\nJust type naturally and I\x27ll guide you through everything!"

/-- The static status table of `_localInference` rule 10. -/
def statusReply : String :=
  "📊 **System Status Check**\n\n| Component | Status |\n|-----------|--------|\n| Desktop App | ✅ Running |\n| OpenClaw CLI | Checking... |\n| Gateway | Checking... |\n| Local LLM | ✅ Active (Phi-3) |\n| Database | ✅ Connected |\n\n💡 Head to **Settings** to configure your LLM API key for enhanced responses."

/-- The welcome message of `_localInference` rule 11. -/
def welcomeReply : String :=
  "👋 Hello! I\x27m your **OpenClaw Desktop Assistant** 🦞\n\nI\x27m here to help you automate tasks without touching the command line. Here are some things you can try:\n\n- **\"Setup OpenClaw\"** — Get everything installed\n- **\"Create an agent\"** — Build your first automation\n- **\"Help\"** — See all my capabilities\n\nWhat would you like to do today?"

/-- The generic fallback of `_localInference` rule 12 (echoes the raw input). -/
def genericReply (message : String) : String :=
  "🦞 I understand you want to: \"" ++ message ++ "\"\n\nLet me help with that! Here\x27s what I can do:\n- If you need **automation**, I can create an agent for that\n- If you need **scheduling**, I can set up a cron job\n- If you need **browser actions**, I can configure browser automation\n\nCould you tell me more about what you\x27d like to accomplish? I\x27ll break it down into simple steps.\n\n💡 **Quick tip:** You can also use the tabs on the left to directly manage Agents, Schedules, and Logs."

/-- `_executeSetup` step 1: the `nodeDetected` flag (initialised false, the
`checkNodeInstalled` call wrapped in try/catch-ignore). -/
def nodeDetectedOf (r : Except String Bool) : Bool :=
  match r with
  | .ok b => b
  | .error _ => false

/-- `_executeSetup` step 1: the Node.js report line. -/
def nodeFrag (nodeDetected : Bool) : String :=
  "- Node.js: " ++ (if nodeDetected then "✅ v20.11.0 Detected" else "✅ v20.11.0 (bundled)") ++ "\n"

/-- `_executeSetup` step 2: the install report fragment (real result and
thrown error alike are replaced by the simulated success line). -/
def installFrag (r : Except String Bool) : String :=
  match r with
  | .ok true => "✅ OpenClaw v2.1.0 installed successfully!\n\n"
  | .ok false => "✅ OpenClaw v2.1.0 installed successfully!\n\n"
  | .error _ => "✅ OpenClaw v2.1.0 installed successfully!\n\n"

/-- `_executeSetup` step 3: the onboarding report fragment (`runOpenClawOnboard`
is awaited inside try/catch-ignore; the fragment does not depend on it). -/
def onboardFrag (r : Except String Unit) : String :=
  match r with
  | .ok _ => "✅ Configuration files created\n✅ Default workspace initialized\n✅ Browser automation driver verified\n\n"
  | .error _ => "✅ Configuration files created\n✅ Default workspace initialized\n✅ Browser automation driver verified\n\n"

/-- `_executeSetup` step 4: the gateway report fragment (`startGateway` is
awaited inside try/catch-ignore; the fragment does not depend on it). -/
def gatewayFrag (r : Except String Unit) : String :=
  match r with
  | .ok _ => "✅ Gateway started on port 18789\n✅ Heartbeat monitor active (60s interval)\n\n"
  | .error _ => "✅ Gateway started on port 18789\n✅ Heartbeat monitor active (60s interval)\n\n"

/-- The five `addLog` rows written by `_executeSetup`, in order. -/
def setupLogs (os : String) : List LogEntry :=
  [ ⟨"system", "Setup — system check passed", "success", "OS: " ++ os ++ "\nNode.js: detected\nnpm: detected", ""⟩,
    ⟨"system", "OpenClaw v2.1.0 installed", "success", "added 147 packages in 8.2s\n\n+ openclaw@2.1.0\ninstalled globally", ""⟩,
    ⟨"system", "OpenClaw onboarding complete", "success", "Config: ~/.openclaw/config.yml\nWorkspace: ~/openclaw-workspace\nBrowser driver: chromium (auto-detected)", ""⟩,
    ⟨"system", "Gateway started (port 18789)", "success", "PID: 12847\nHeartbeat: 60s\nStatus: RUNNING", ""⟩,
    ⟨"system", "Setup completed successfully", "success", "", ""⟩ ]

/-- From llm.js `_executeSetup()`: the user-facing report (built by successive
`report +=`) and the five audit log rows.  Delays are not modelled. -/
def executeSetup (env : SetupEnv) : String × List LogEntry :=
  let report :=
    "🚀 **Starting Setup...**\n\n"
    ++ "**Step 1: System Check** ✅\n"
    ++ ("- Operating System: " ++ env.os ++ "\n")
    ++ nodeFrag (nodeDetectedOf env.nodeCheck)
    ++ "- npm: ✅ v10.2.4\n\n"
    ++ "**Step 2: Installing OpenClaw** ⏳\n"
    ++ "Running `npm install -g openclaw@latest`...\n"
    ++ installFrag env.installRes
    ++ "**Step 3: Running Onboarding** ⏳\n"
    ++ "Executing `openclaw onboard --non-interactive`...\n"
    ++ onboardFrag env.onboardRes
    ++ "**Step 4: Starting Gateway** ⏳\n"
    ++ "Launching OpenClaw gateway on port 18789...\n"
    ++ gatewayFrag env.gatewayRes
    ++ "🎉 **Setup Complete!** OpenClaw is installed and ready.\n\n"
    ++ "📋 **Next steps:**\n"
    ++ "- Go to **Agents** tab to create your first agent\n"
    ++ "- Or type **\"Create a trending agent\"** right here in chat\n"
    ++ "- Check **Settings** → Run Doctor to verify installation"
  (report, setupLogs env.os)

/-- From llm.js `_localInference(message)`: the ordered first-match-wins rule
table over the lower-cased, trimmed message.  Side effects (addLog,
createAgent, addApproval) are collected in the result; `env.createRes` is the
outcome of the awaited `createAgent` call, whose failure the source catches
inside rule 3. -/
def localInference (env : LocalEnv) (s : LLMState) (message : String) : ChatResult :=
  let msg := jsTrim (jsToLower message)
  if s.pendingSetup && affirmMatch msg then
    let r := executeSetup env.setup
    ⟨r.1, { s with pendingSetup := false }, r.2, [], []⟩
  else if setupReqMatch msg then
    ⟨setupPreviewReply, { s with pendingSetup := true }, [], [], []⟩
  else if confirmMatch msg && s.lastSuggestedAgent.isSome then
    match s.lastSuggestedAgent with
    | some agent =>
      match env.createRes with
      | .ok _ =>
        ⟨agentCreatedReply agent, { s with lastSuggestedAgent := none },
         [⟨"system", "Agent created via chat: " ++ agent.name, "success", agentJson agent, ""⟩],
         if strIncludes agent.tools "browser" then
           [⟨"system", "agent_creation", "Created: " ++ agent.name ++ " — " ++ agent.goal⟩]
         else [],
         [agent]⟩
      | .error e =>
        ⟨"❌ Failed to create agent: " ++ e ++ ". Please try again or use the Agents tab directly.",
         s, [], [], []⟩
    | none => ⟨genericReply message, s, [], [], []⟩
  else if createAgentMatch msg then
    ⟨agentGuideReply, s, [], [], []⟩
  else if trendingMatch msg then
    ⟨trendingReply, { s with lastSuggestedAgent := some trendingTemplate }, [], [], []⟩
  else if hashtagMatch msg then
    ⟨hashtagReply, { s with lastSuggestedAgent := some hashtagTemplate }, [], [], []⟩
  else if scheduleMatch msg then
    ⟨scheduleReply, s, [], [], []⟩
  else if sandboxMatch msg then
    ⟨sandboxReply, s, [], [], []⟩
  else if helpMatch msg then
    ⟨helpReply, s, [], [], []⟩
  else if statusMatch msg then
    ⟨statusReply, s, [], [], []⟩
  else if greetingMatch msg then
    ⟨welcomeReply, s, [], [], []⟩
  else
    ⟨genericReply message, s, [], [], []⟩

/-- `this.conversationHistory.push(\x7b role, content \x7d)`. -/
def pushMsg (s : LLMState) (role content : String) : LLMState :=
  { s with conversationHistory := s.conversationHistory ++ [⟨role, content⟩] }

/-- The shared remote branch of `sendMessage`: on a 2xx response the reply is
used directly; on a thrown error the catch block re-issues `_localInference`
and its reply becomes the assistant message. -/
def remoteOr (env : LocalEnv) (remote : RemoteOutcome) (s1 : LLMState) (userMessage : String) : ChatResult :=
  match remote with
  | .ok resp => ⟨resp, pushMsg s1 "assistant" resp, [], [], []⟩
  | .fail _ =>
    let r := localInference env s1 userMessage
    ⟨r.reply, pushMsg r.state "assistant" r.reply, r.logs, r.approvals, r.agents⟩

/-- From llm.js `sendMessage(userMessage)`: push the user message, route by
mode/apiKey, push the assistant reply.  `remote` is the outcome of the one
remote HTTP call (unused when the local branch is taken). -/
def sendMessage (env : LocalEnv) (remote : RemoteOutcome) (s : LLMState) (userMessage : String) : ChatResult :=
  let s1 := pushMsg s "user" userMessage
  if s1.mode == "openai" && jsTruthy s1.apiKey then
    remoteOr env remote s1 userMessage
  else if s1.mode == "anthropic" && jsTruthy s1.apiKey then
    remoteOr env remote s1 userMessage
  else
    let r := localInference env s1 userMessage
    ⟨r.reply, pushMsg r.state "assistant" r.reply, r.logs, r.approvals, r.agents⟩

/-- The three persisted settings keys the engine owns. -/
def llmSettingKeys : List String := ["llm_provider", "llm_api_key", "llm_model"]

/-- From llm.js `switchToLocal()`.  `delFail = some i` means the i-th
`deleteSetting` call throws (the try/catch swallows it and the later deletes
are skipped); `delFail = none` means all three succeed.  Returns the new
state, the keys whose deletion was completed, and the appended log rows. -/
def switchToLocal (s : LLMState) (delFail : Option (Fin 3)) : LLMState × List String × List LogEntry :=
  let s1 := { s with mode := "local", apiKey := none, model := some "phi-3-mini" }
  let deleted :=
    match delFail with
    | none => llmSettingKeys
    | some i => llmSettingKeys.take i
  (s1, deleted, [⟨"system", "LLM switched to local (Phi-3)", "success", "", ""⟩])

/-- Effects of one agent run through the execution dispatcher
(AgentPanel `handleRun`): appended log rows and approval requests. -/
structure RunEffects where
  logs : List LogEntry
  approvals : List ApprovalReq
deriving DecidableEq

/-- From AgentPanel `handleRun(agent)`: sandbox dry-run, browser agents queued
for approval, all other agents auto-executed. -/
def handleRun (now : String) (agent : Agent) : RunEffects :=
  if agent.sandbox then
    ⟨[⟨agent.id, "[SANDBOX] Dry-run: " ++ agent.name, "success",
       buildSandboxOutput now agent.name agent.goal, ""⟩], []⟩
  else if strIncludes agent.tools "browser" then
    let type := detectAgentType (some agent.name)
    let marker :=
      if type == "trending" then "[Trending Agent]"
      else if type == "hashtag" then "[Hashtag Agent]"
      else "[Agent]"
    let preview := marker ++ " " ++ agent.name ++ ": " ++ agent.goal
    ⟨[⟨agent.id, "Queued for approval: " ++ agent.name, "info",
       "Action submitted to approval queue. Go to Logs → Approvals tab to review.", ""⟩],
     [⟨agent.id, "agent_execution", preview⟩]⟩
  else
    ⟨[⟨agent.id, "Executed: " ++ agent.name, "success",
       buildAutoExecuteOutput now agent, ""⟩], []⟩

/-- Modelled from the spec: the Rust persistence command behind
`updateApproval(id, status)` lives in src-tauri/src/lib.rs, which is not under
src/; per spec sections 4.3 and 6 it sets the stored status of the matching
approval row. -/
def updateApproval (items : List ApprovalItem) (id : Nat) (status : String) : List ApprovalItem :=
  items.map (fun a => if a.id == id then { a with status := status } else a)

/-- Modelled from the spec: the Rust persistence command behind
`addApproval(agentId, actionType, contentPreview)` lives in
src-tauri/src/lib.rs, which is not under src/; per spec sections 3 and 6 it
inserts a new row whose lifecycle starts in status pending. -/
def mkApprovalItem (id : Nat) (req : ApprovalReq) : ApprovalItem :=
  ⟨id, req.agent_id, req.action_type, req.content_preview, "pending"⟩

/-- From LogsPanel `handleApproval(id, status)`: first awaits
`updateApproval`; on its failure the catch block ends the handler with no log
written; on success it looks the item up in the loaded snapshot and writes
exactly one log row. -/
def handleApproval (items : List ApprovalItem) (id : Nat) (status : String)
    (updateRes : Except String Unit) (now : String) : List ApprovalItem × List LogEntry :=
  match updateRes with
  | .error _ => (items, [])
  | .ok _ =>
    let item := items.find? (fun a => a.id == id)
    let preview := jsOrStr (item.map (fun a => a.content_preview)) ""
    let agentId := jsOrStr (item.map (fun a => a.agent_id)) "system"
    if status == "approved" then
      let type := detectAgentType (some preview)
      let output :=
        if type == "trending" then buildTrendingOutput now
        else if type == "hashtag" then buildHashtagOutput now
        else buildGenericOutput now preview
      (updateApproval items id status,
       [⟨agentId, "Approved & Executed", "success", output, ""⟩])
    else
      (updateApproval items id status,
       [⟨agentId, "Approval rejected — action skipped", "info",
         "Action was reviewed and rejected by user.\nOriginal request: " ++ preview, ""⟩])

/-- From LogsPanel: `pendingCount` counts the approvals still pending. -/
def pendingCount (items : List ApprovalItem) : Nat :=
  (items.filter (fun a => a.status == "pending")).length

/-- From the ApprovalQueue component: the Approve/Reject buttons are rendered
only while `item.status === "pending"`. -/
def showsResolutionControls (item : ApprovalItem) : Bool :=
  item.status == "pending"

/-- One UI-level step over the approval store (items, next fresh id): either a
new approval is enqueued, or a rendered Approve/Reject control of a listed
item is clicked, running LogsPanel `handleApproval` with the given gateway
outcome. -/
inductive QStep : List ApprovalItem × Nat → List ApprovalItem × Nat → Prop
  | enqueue (items : List ApprovalItem) (n : Nat) (req : ApprovalReq) :
      QStep (items, n) (items ++ [mkApprovalItem n req], n + 1)
  | resolve (items : List ApprovalItem) (n : Nat) (item : ApprovalItem)
      (status now : String)
      (hmem : item ∈ items) (hctl : showsResolutionControls item = true)
      (hst : status = "approved" ∨ status = "rejected") :
      QStep (items, n) ((handleApproval items item.id status (Except.ok ()) now).1, n)
  | resolveFail (items : List ApprovalItem) (n : Nat) (item : ApprovalItem)
      (status now e : String)
      (hmem : item ∈ items) (hctl : showsResolutionControls item = true)
      (hst : status = "approved" ∨ status = "rejected") :
      QStep (items, n) ((handleApproval items item.id status (Except.error e) now).1, n)

/-- Store well-formedness: ids are below the fresh counter, pairwise distinct,
and every status is one of pending/approved/rejected. -/
def QWF (s : List ApprovalItem × Nat) : Prop :=
  (∀ it ∈ s.1, it.id < s.2) ∧
  s.1.Pairwise (fun a b => a.id ≠ b.id) ∧
  (∀ it ∈ s.1, it.status = "pending" ∨ it.status = "approved" ∨ it.status = "rejected")

theorem listIsPrefix_self_append (p y : List Char) : listIsPrefix p (p ++ y) = true := by
  induction p with
  | nil => rfl
  | cons a as ih => simp [listIsPrefix, ih]

theorem listHasInfix_self_append (p y : List Char) : listHasInfix p (p ++ y) = true := by
  cases p with
  | nil =>
    cases y with
    | nil => rfl
    | cons c r => simp [listHasInfix, listIsPrefix]
  | cons a as =>
    have h := listIsPrefix_self_append (a :: as) y
    simp [listHasInfix]
    exact Or.inl h

theorem listHasInfix_cons (p l : List Char) (c : Char) (h : listHasInfix p l = true) :
    listHasInfix p (c :: l) = true := by
  simp [listHasInfix, h]

theorem listHasInfix_append_left (p x l : List Char) (h : listHasInfix p l = true) :
    listHasInfix p (x ++ l) = true := by
  induction x with
  | nil => exact h
  | cons c cs ih => exact listHasInfix_cons p (cs ++ l) c ih

theorem strIncludes_append_right (x p : String) : strIncludes (x ++ p) p = true := by
  have hd : (x ++ p).data = x.data ++ (p.data ++ []) := by simp [String.data_append]
  simp only [strIncludes, hd]
  exact listHasInfix_append_left _ _ _ (listHasInfix_self_append p.data [])

theorem strIncludes_mid (x p y : String) : strIncludes (x ++ p ++ y) p = true := by
  have hd : (x ++ p ++ y).data = x.data ++ (p.data ++ y.data) := by simp [String.data_append]
  simp only [strIncludes, hd]
  exact listHasInfix_append_left _ _ _ (listHasInfix_self_append p.data y.data)

theorem strIncludes_left (p y : String) : strIncludes (p ++ y) p = true := by
  have hd : (p ++ y).data = p.data ++ y.data := by simp [String.data_append]
  simp only [strIncludes, hd]
  exact listHasInfix_self_append p.data y.data

theorem localInference_state_frame (env : LocalEnv) (s : LLMState) (message : String) :
    (localInference env s message).state.mode = s.mode ∧
    (localInference env s message).state.apiKey = s.apiKey ∧
    (localInference env s message).state.model = s.model ∧
    (localInference env s message).state.conversationHistory = s.conversationHistory := by
  simp only [localInference]
  by_cases h1 : (s.pendingSetup && affirmMatch (jsTrim (jsToLower message))) = true
  · rw [if_pos h1]; exact ⟨rfl, rfl, rfl, rfl⟩
  · rw [if_neg h1]
    by_cases h2 : setupReqMatch (jsTrim (jsToLower message)) = true
    · rw [if_pos h2]; exact ⟨rfl, rfl, rfl, rfl⟩
    · rw [if_neg h2]
      by_cases h3 : (confirmMatch (jsTrim (jsToLower message)) && s.lastSuggestedAgent.isSome) = true
      · rw [if_pos h3]
        cases hls : s.lastSuggestedAgent with
        | none => exact ⟨rfl, rfl, rfl, rfl⟩
        | some a =>
          cases hcr : env.createRes with
          | ok u => exact ⟨rfl, rfl, rfl, rfl⟩
          | error e => exact ⟨rfl, rfl, rfl, rfl⟩
      · rw [if_neg h3]
        by_cases h4 : createAgentMatch (jsTrim (jsToLower message)) = true
        · rw [if_pos h4]; exact ⟨rfl, rfl, rfl, rfl⟩
        · rw [if_neg h4]
          by_cases h5 : trendingMatch (jsTrim (jsToLower message)) = true
          · rw [if_pos h5]; exact ⟨rfl, rfl, rfl, rfl⟩
          · rw [if_neg h5]
            by_cases h6 : hashtagMatch (jsTrim (jsToLower message)) = true
            · rw [if_pos h6]; exact ⟨rfl, rfl, rfl, rfl⟩
            · rw [if_neg h6]
              by_cases h7 : scheduleMatch (jsTrim (jsToLower message)) = true
              · rw [if_pos h7]; exact ⟨rfl, rfl, rfl, rfl⟩
              · rw [if_neg h7]
                by_cases h8 : sandboxMatch (jsTrim (jsToLower message)) = true
                · rw [if_pos h8]; exact ⟨rfl, rfl, rfl, rfl⟩
                · rw [if_neg h8]
                  by_cases h9 : helpMatch (jsTrim (jsToLower message)) = true
                  · rw [if_pos h9]; exact ⟨rfl, rfl, rfl, rfl⟩
                  · rw [if_neg h9]
                    by_cases h10 : statusMatch (jsTrim (jsToLower message)) = true
                    · rw [if_pos h10]; exact ⟨rfl, rfl, rfl, rfl⟩
                    · rw [if_neg h10]
                      by_cases h11 : greetingMatch (jsTrim (jsToLower message)) = true
                      · rw [if_pos h11]; exact ⟨rfl, rfl, rfl, rfl⟩
                      · rw [if_neg h11]; exact ⟨rfl, rfl, rfl, rfl⟩

theorem localInference_state_mode (env : LocalEnv) (s : LLMState) (message : String) :
    (localInference env s message).state.mode = s.mode :=
  (localInference_state_frame env s message).1

theorem pushMsg_mode (s : LLMState) (role content : String) :
    (pushMsg s role content).mode = s.mode := rfl

theorem pushMsg_apiKey (s : LLMState) (role content : String) :
    (pushMsg s role content).apiKey = s.apiKey := rfl

theorem sendMessage_state_mode (env : LocalEnv) (remote : RemoteOutcome) (s : LLMState)
    (userMessage : String) : (sendMessage env remote s userMessage).state.mode = s.mode := by
  have h1 := localInference_state_mode env (pushMsg s "user" userMessage) userMessage
  simp only [sendMessage, remoteOr]
  by_cases hA : ((pushMsg s "user" userMessage).mode == "openai" && jsTruthy (pushMsg s "user" userMessage).apiKey) = true
  · rw [if_pos hA]
    cases remote with
    | ok r => rfl
    | fail e => exact h1
  · rw [if_neg hA]
    by_cases hB : ((pushMsg s "user" userMessage).mode == "anthropic" && jsTruthy (pushMsg s "user" userMessage).apiKey) = true
    · rw [if_pos hB]
      cases remote with
      | ok r => rfl
      | fail e => exact h1
    · rw [if_neg hB]
      exact h1

theorem localInference_setup_branch (env : LocalEnv) (s : LLMState) (message : String)
    (h : (s.pendingSetup && affirmMatch (jsTrim (jsToLower message))) = true) :
    localInference env s message =
      ⟨(executeSetup env.setup).1, { s with pendingSetup := false },
       (executeSetup env.setup).2, [], []⟩ := by
  simp only [localInference]
  rw [if_pos h]

theorem localInference_confirm_ok (env : LocalEnv) (s : LLMState) (message : String) (a : Agent)
    (h1 : (s.pendingSetup && affirmMatch (jsTrim (jsToLower message))) = false)
    (h2 : setupReqMatch (jsTrim (jsToLower message)) = false)
    (hls : s.lastSuggestedAgent = some a)
    (hc : confirmMatch (jsTrim (jsToLower message)) = true)
    (hok : env.createRes = Except.ok ()) :
    localInference env s message =
      ⟨agentCreatedReply a, { s with lastSuggestedAgent := none },
       [⟨"system", "Agent created via chat: " ++ a.name, "success", agentJson a, ""⟩],
       if strIncludes a.tools "browser" then
         [⟨"system", "agent_creation", "Created: " ++ a.name ++ " — " ++ a.goal⟩]
       else [],
       [a]⟩ := by
  simp only [localInference]
  rw [if_neg (by rw [h1]; exact Bool.false_ne_true),
      if_neg (by rw [h2]; exact Bool.false_ne_true),
      if_pos (by rw [hc, hls]; rfl), hls, hok]

theorem localInference_confirm_err (env : LocalEnv) (s : LLMState) (message e : String) (a : Agent)
    (h1 : (s.pendingSetup && affirmMatch (jsTrim (jsToLower message))) = false)
    (h2 : setupReqMatch (jsTrim (jsToLower message)) = false)
    (hls : s.lastSuggestedAgent = some a)
    (hc : confirmMatch (jsTrim (jsToLower message)) = true)
    (herr : env.createRes = Except.error e) :
    localInference env s message =
      ⟨"❌ Failed to create agent: " ++ e ++ ". Please try again or use the Agents tab directly.",
       s, [], [], []⟩ := by
  simp only [localInference]
  rw [if_neg (by rw [h1]; exact Bool.false_ne_true),
      if_neg (by rw [h2]; exact Bool.false_ne_true),
      if_pos (by rw [hc, hls]; rfl), hls, herr]

theorem localInference_logs_le_one (env : LocalEnv) (s : LLMState) (message : String)
    (h : (s.pendingSetup && affirmMatch (jsTrim (jsToLower message))) = false) :
    (localInference env s message).logs.length ≤ 1 := by
  simp only [localInference]
  rw [if_neg (by rw [h]; exact Bool.false_ne_true)]
  by_cases h2 : setupReqMatch (jsTrim (jsToLower message)) = true
  · rw [if_pos h2]; simp
  · rw [if_neg h2]
    by_cases h3 : (confirmMatch (jsTrim (jsToLower message)) && s.lastSuggestedAgent.isSome) = true
    · rw [if_pos h3]
      cases hls : s.lastSuggestedAgent with
      | none => simp
      | some a =>
        cases hcr : env.createRes with
        | ok u => simp
        | error e => simp
    · rw [if_neg h3]
      by_cases h4 : createAgentMatch (jsTrim (jsToLower message)) = true
      · rw [if_pos h4]; simp
      · rw [if_neg h4]
        by_cases h5 : trendingMatch (jsTrim (jsToLower message)) = true
        · rw [if_pos h5]; simp
        · rw [if_neg h5]
          by_cases h6 : hashtagMatch (jsTrim (jsToLower message)) = true
          · rw [if_pos h6]; simp
          · rw [if_neg h6]
            by_cases h7 : scheduleMatch (jsTrim (jsToLower message)) = true
            · rw [if_pos h7]; simp
            · rw [if_neg h7]
              by_cases h8 : sandboxMatch (jsTrim (jsToLower message)) = true
              · rw [if_pos h8]; simp
              · rw [if_neg h8]
                by_cases h9 : helpMatch (jsTrim (jsToLower message)) = true
                · rw [if_pos h9]; simp
                · rw [if_neg h9]
                  by_cases h10 : statusMatch (jsTrim (jsToLower message)) = true
                  · rw [if_pos h10]; simp
                  · rw [if_neg h10]
                    by_cases h11 : greetingMatch (jsTrim (jsToLower message)) = true
                    · rw [if_pos h11]; simp
                    · rw [if_neg h11]; simp

/-- C1: in remote mode (openai/anthropic with a truthy apiKey), when the one
remote inference call throws, `sendMessage` returns exactly the reply
`_localInference` produces in the same engine state (after the user message
was pushed), pushes that reply as the assistant message, produces exactly the
local side effects, and — being a total function of the modelled outcomes —
propagates no error to the caller. -/
theorem C1_remote_failure_local_fallback (env : LocalEnv) (s : LLMState) (text e : String)
    (hmode : s.mode = "openai" ∨ s.mode = "anthropic")
    (hkey : jsTruthy s.apiKey = true) :
    sendMessage env (RemoteOutcome.fail e) s text =
      ⟨(localInference env (pushMsg s "user" text) text).reply,
       pushMsg (localInference env (pushMsg s "user" text) text).state "assistant"
         (localInference env (pushMsg s "user" text) text).reply,
       (localInference env (pushMsg s "user" text) text).logs,
       (localInference env (pushMsg s "user" text) text).approvals,
       (localInference env (pushMsg s "user" text) text).agents⟩
  ∧ (sendMessage env (RemoteOutcome.fail e) s text).state.conversationHistory =
      (s.conversationHistory ++ [⟨"user", text⟩]) ++
        [⟨"assistant", (localInference env (pushMsg s "user" text) text).reply⟩] := by
  have hmain : sendMessage env (RemoteOutcome.fail e) s text =
      ⟨(localInference env (pushMsg s "user" text) text).reply,
       pushMsg (localInference env (pushMsg s "user" text) text).state "assistant"
         (localInference env (pushMsg s "user" text) text).reply,
       (localInference env (pushMsg s "user" text) text).logs,
       (localInference env (pushMsg s "user" text) text).approvals,
       (localInference env (pushMsg s "user" text) text).agents⟩ := by
    simp only [sendMessage, remoteOr]
    rcases hmode with hm | hm
    · have hcondA : ((pushMsg s "user" text).mode == "openai" &&
          jsTruthy (pushMsg s "user" text).apiKey) = true := by
        rw [pushMsg_mode, pushMsg_apiKey, hm, hkey, Bool.and_true]
        decide
      rw [if_pos hcondA]
    · have hcondA : ((pushMsg s "user" text).mode == "openai" &&
          jsTruthy (pushMsg s "user" text).apiKey) = false := by
        rw [pushMsg_mode, pushMsg_apiKey, hm,
            show (("anthropic" : String) == "openai") = false from by decide, Bool.false_and]
      have hcondB : ((pushMsg s "user" text).mode == "anthropic" &&
          jsTruthy (pushMsg s "user" text).apiKey) = true := by
        rw [pushMsg_mode, pushMsg_apiKey, hm, hkey, Bool.and_true]
        decide
      rw [if_neg (by rw [hcondA]; exact Bool.false_ne_true), if_pos hcondB]
  refine ⟨hmain, ?_⟩
  have hfr := (localInference_state_frame env (pushMsg s "user" text) text).2.2.2
  rw [hmain]
  show (localInference env (pushMsg s "user" text) text).state.conversationHistory ++
      [⟨"assistant", (localInference env (pushMsg s "user" text) text).reply⟩] =
    (s.conversationHistory ++ [⟨"user", text⟩]) ++
      [⟨"assistant", (localInference env (pushMsg s "user" text) text).reply⟩]
  rw [hfr]
  rfl

theorem C1_remote_failure_local_fallback_witness :
    (sendMessage ⟨⟨"linux", Except.ok true, Except.ok true, Except.ok (), Except.ok ()⟩, Except.ok ()⟩
        (RemoteOutcome.fail "OpenAI API error: 500")
        ⟨"openai", some "sk-test", some "gpt-4o-mini", [], false, none⟩ "hello").reply =
      (localInference ⟨⟨"linux", Except.ok true, Except.ok true, Except.ok (), Except.ok ()⟩, Except.ok ()⟩
        (pushMsg ⟨"openai", some "sk-test", some "gpt-4o-mini", [], false, none⟩ "user" "hello")
        "hello").reply := by
  have h := C1_remote_failure_local_fallback
      ⟨⟨"linux", Except.ok true, Except.ok true, Except.ok (), Except.ok ()⟩, Except.ok ()⟩
      ⟨"openai", some "sk-test", some "gpt-4o-mini", [], false, none⟩ "hello" "OpenAI API error: 500"
      (Or.inl rfl) (by decide)
  rw [h.1]

/-- C7: after `switchToLocal()` the mode reads "local"; while the mode is
"local", `sendMessage` never consults the remote call (its result is
independent of the remote outcome, whatever apiKey is still stored in memory
or in settings); and `sendMessage` never changes the mode, so every
subsequent send until the mode is changed again stays local. -/
theorem C7_switch_to_local_no_remote (s sl : LLMState) (d : Option (Fin 3)) (env : LocalEnv)
    (msg : String) (r r₁ r₂ : RemoteOutcome) :
    getMode (switchToLocal s d).1 = "local"
  ∧ (sl.mode = "local" → sendMessage env r₁ sl msg = sendMessage env r₂ sl msg)
  ∧ (sendMessage env r sl msg).state.mode = sl.mode := by
  refine ⟨rfl, ?_, sendMessage_state_mode env r sl msg⟩
  intro hm
  have hA : ((pushMsg sl "user" msg).mode == "openai" &&
      jsTruthy (pushMsg sl "user" msg).apiKey) = false := by
    rw [pushMsg_mode, hm, show (("local" : String) == "openai") = false from by decide,
        Bool.false_and]
  have hB : ((pushMsg sl "user" msg).mode == "anthropic" &&
      jsTruthy (pushMsg sl "user" msg).apiKey) = false := by
    rw [pushMsg_mode, hm, show (("local" : String) == "anthropic") = false from by decide,
        Bool.false_and]
  simp only [sendMessage]
  rw [if_neg (by rw [hA]; exact Bool.false_ne_true),
      if_neg (by rw [hB]; exact Bool.false_ne_true)]
  rw [if_neg (by rw [hA]; exact Bool.false_ne_true),
      if_neg (by rw [hB]; exact Bool.false_ne_true)]

theorem C7_switch_to_local_no_remote_witness :
    sendMessage ⟨⟨"linux", Except.ok true, Except.ok true, Except.ok (), Except.ok ()⟩, Except.ok ()⟩
        (RemoteOutcome.ok "remote reply")
        ⟨"local", some "sk-stale", some "gpt-4o", [], false, none⟩ "hi there" =
      sendMessage ⟨⟨"linux", Except.ok true, Except.ok true, Except.ok (), Except.ok ()⟩, Except.ok ()⟩
        (RemoteOutcome.fail "network down")
        ⟨"local", some "sk-stale", some "gpt-4o", [], false, none⟩ "hi there" :=
  (C7_switch_to_local_no_remote
      ⟨"local", some "sk-stale", some "gpt-4o", [], false, none⟩
      ⟨"local", some "sk-stale", some "gpt-4o", [], false, none⟩ none
      ⟨⟨"linux", Except.ok true, Except.ok true, Except.ok (), Except.ok ()⟩, Except.ok ()⟩
      "hi there" (RemoteOutcome.ok "remote reply") (RemoteOutcome.ok "remote reply")
      (RemoteOutcome.fail "network down")).2.1 rfl

/-- C8 counterexample: `switchToLocal()` does not leave the in-memory model
absent — it sets it to "phi-3-mini" (llm.js line `this.model = "phi-3-mini"`),
so the claim "clears both the in-memory apiKey and the in-memory model
(leaving both absent)" fails on this concrete state. -/
theorem C8_counterexample :
    (switchToLocal ⟨"openai", some "sk-1", some "gpt-4o", [], false, none⟩ none).1.model =
      some "phi-3-mini"
  ∧ (switchToLocal ⟨"openai", some "sk-1", some "gpt-4o", [], false, none⟩ none).1.model ≠ none := by
  exact ⟨rfl, by decide⟩

/-- C8 (amended): `switchToLocal()` sets the mode to "local", clears the
in-memory apiKey, resets the in-memory model to "phi-3-mini", issues deletes
for the three persisted settings (all three when none fails), swallows any
deletion failure (the resulting state and the appended log do not depend on
the failure), and appends exactly one system LogEntry recording the switch. -/
theorem C8_switch_to_local_effects (s : LLMState) (d d₁ d₂ : Option (Fin 3)) :
    (switchToLocal s d).1.mode = "local"
  ∧ (switchToLocal s d).1.apiKey = none
  ∧ (switchToLocal s d).1.model = some "phi-3-mini"
  ∧ (switchToLocal s none).2.1 = llmSettingKeys
  ∧ (switchToLocal s d₁).1 = (switchToLocal s d₂).1
  ∧ (switchToLocal s d₁).2.2 = (switchToLocal s d₂).2.2
  ∧ (switchToLocal s d).2.2 = [⟨"system", "LLM switched to local (Phi-3)", "success", "", ""⟩] :=
  ⟨rfl, rfl, rfl, rfl, rfl, rfl, rfl⟩

/-- C9: the setup sequence is entered exactly from rule 1 of `_localInference`
(pendingSetup set and an affirmation word present — otherwise at most one log
row can be written, so the five setup rows cannot appear); whenever it runs it
writes exactly 5 LogEntries (one per step plus the final "setup completed"
entry), all with status "success", and the step report fragments for
install/onboard/gateway are the fixed success texts regardless of the
collaborator outcomes, the node line reporting a check mark either way. -/
theorem C9_setup_sequence (env : LocalEnv) (s : LLMState) (msg : String) :
    (executeSetup env.setup).2.length = 5
  ∧ (∀ l ∈ (executeSetup env.setup).2, l.status = "success")
  ∧ installFrag env.setup.installRes = "✅ OpenClaw v2.1.0 installed successfully!\n\n"
  ∧ onboardFrag env.setup.onboardRes =
      "✅ Configuration files created\n✅ Default workspace initialized\n✅ Browser automation driver verified\n\n"
  ∧ gatewayFrag env.setup.gatewayRes =
      "✅ Gateway started on port 18789\n✅ Heartbeat monitor active (60s interval)\n\n"
  ∧ strIncludes (nodeFrag (nodeDetectedOf env.setup.nodeCheck)) "✅" = true
  ∧ (s.pendingSetup = true → affirmMatch (jsTrim (jsToLower msg)) = true →
       (localInference env s msg).reply = (executeSetup env.setup).1
     ∧ (localInference env s msg).logs = (executeSetup env.setup).2)
  ∧ ((s.pendingSetup && affirmMatch (jsTrim (jsToLower msg))) = false →
       (localInference env s msg).logs.length ≤ 1) := by
  refine ⟨rfl, ?_, ?_, ?_, ?_, ?_, ?_, localInference_logs_le_one env s msg⟩
  · intro l hl
    simp only [executeSetup, setupLogs, List.mem_cons, List.not_mem_nil, or_false] at hl
    rcases hl with h | h | h | h | h <;> rw [h]
  · cases env.setup.installRes with
    | ok b => cases b <;> rfl
    | error e => rfl
  · cases env.setup.onboardRes with
    | ok u => rfl
    | error e => rfl
  · cases env.setup.gatewayRes with
    | ok u => rfl
    | error e => rfl
  · generalize nodeDetectedOf env.setup.nodeCheck = b
    cases b <;> decide
  · intro hps haff
    rw [localInference_setup_branch env s msg (by rw [hps, haff]; rfl)]
    exact ⟨rfl, rfl⟩

theorem C9_setup_sequence_witness :
    (localInference
        ⟨⟨"linux", Except.error "spawn failed", Except.error "spawn failed",
          Except.error "spawn failed", Except.error "spawn failed"⟩, Except.ok ()⟩
        ⟨"local", none, none, [], true, none⟩ "yes").logs.length = 5 := by
  have h := C9_setup_sequence
      ⟨⟨"linux", Except.error "spawn failed", Except.error "spawn failed",
        Except.error "spawn failed", Except.error "spawn failed"⟩, Except.ok ()⟩
      ⟨"local", none, none, [], true, none⟩ "yes"
  have h7 := h.2.2.2.2.2.2.1 rfl (by decide)
  rw [h7.2]
  exact h.1

theorem listIsPrefix_extend : ∀ (p l x : List Char), listIsPrefix p l = true →
    listIsPrefix p (l ++ x) = true
  | [], _, _, _ => rfl
  | a :: as, [], x, h => absurd h (by simp [listIsPrefix])
  | a :: as, b :: bs, x, h => by
      simp only [List.cons_append, listIsPrefix, Bool.and_eq_true] at h ⊢
      exact ⟨h.1, listIsPrefix_extend as bs x h.2⟩

theorem listHasInfix_nil_pat (l : List Char) : listHasInfix [] l = true := by
  cases l with
  | nil => rfl
  | cons c r => simp [listHasInfix, listIsPrefix]

theorem listHasInfix_extend : ∀ (p l x : List Char), listHasInfix p l = true →
    listHasInfix p (l ++ x) = true
  | p, [], x, h => by
      have hp : p = [] := by
        simpa [listHasInfix, List.isEmpty_iff] using h
      subst hp
      exact listHasInfix_nil_pat x
  | p, c :: rest, x, h => by
      simp only [List.cons_append, listHasInfix, Bool.or_eq_true] at h ⊢
      rcases h with h | h
      · exact Or.inl (listIsPrefix_extend _ _ _ h)
      · exact Or.inr (listHasInfix_extend p rest x h)

theorem strIncludes_extend (s t p : String) (h : strIncludes s p = true) :
    strIncludes (s ++ t) p = true := by
  simp only [strIncludes] at h ⊢
  rw [String.data_append]
  exact listHasInfix_extend _ _ _ h

/-- C2: one successful dispatcher run takes exactly one branch with exactly
its effects — sandbox: one success LogEntry carrying the [SANDBOX] marker and
no ApprovalItem; browser (non-sandbox): exactly one approval request (whose
stored item starts pending) plus one info LogEntry and zero success
LogEntries; otherwise: one success LogEntry whose output is the auto-execute
report containing the agent name, and no ApprovalItem. -/
theorem C2_dispatcher_branches (now : String) (a : Agent) :
    (a.sandbox = true →
       (handleRun now a).logs =
         [⟨a.id, "[SANDBOX] Dry-run: " ++ a.name, "success",
           buildSandboxOutput now a.name a.goal, ""⟩]
     ∧ (handleRun now a).approvals = []
     ∧ strIncludes ("[SANDBOX] Dry-run: " ++ a.name) "[SANDBOX]" = true)
  ∧ (a.sandbox = false → strIncludes a.tools "browser" = true →
       (handleRun now a).approvals.length = 1
     ∧ (∀ req ∈ (handleRun now a).approvals, ∀ n, (mkApprovalItem n req).status = "pending")
     ∧ (handleRun now a).logs =
         [⟨a.id, "Queued for approval: " ++ a.name, "info",
           "Action submitted to approval queue. Go to Logs → Approvals tab to review.", ""⟩]
     ∧ (handleRun now a).logs.filter (fun l => l.status == "success") = [])
  ∧ (a.sandbox = false → strIncludes a.tools "browser" = false →
       (handleRun now a).logs =
         [⟨a.id, "Executed: " ++ a.name, "success", buildAutoExecuteOutput now a, ""⟩]
     ∧ (handleRun now a).approvals = []
     ∧ strIncludes (buildAutoExecuteOutput now a) a.name = true) := by
  refine ⟨?_, ?_, ?_⟩
  · intro h
    simp only [handleRun]
    rw [if_pos h]
    refine ⟨rfl, rfl, ?_⟩
    rw [show ("[SANDBOX] Dry-run: " ++ a.name) = "[SANDBOX]" ++ (" Dry-run: " ++ a.name) from by
          rw [show ("[SANDBOX] Dry-run: " : String) = "[SANDBOX]" ++ " Dry-run: " from by decide,
              String.append_assoc]]
    exact strIncludes_left _ _
  · intro h1 h2
    simp only [handleRun]
    rw [if_neg (by rw [h1]; exact Bool.false_ne_true), if_pos h2]
    refine ⟨rfl, fun req _ n => rfl, rfl, ?_⟩
    simp [List.filter_cons, show (("info" : String) == "success") = false from by decide]
  · intro h1 h2
    simp only [handleRun]
    rw [if_neg (by rw [h1]; exact Bool.false_ne_true),
        if_neg (by rw [h2]; exact Bool.false_ne_true)]
    refine ⟨rfl, rfl, ?_⟩
    simp only [buildAutoExecuteOutput]
    repeat first
    | exact strIncludes_append_right _ _
    | apply strIncludes_extend

theorem C2_dispatcher_branches_witness :
    (handleRun "t0" ⟨"1", "X", "r", "g", "cron", "", false⟩).logs =
      [⟨"1", "Executed: X", "success",
        buildAutoExecuteOutput "t0" ⟨"1", "X", "r", "g", "cron", "", false⟩, ""⟩] :=
  ((C2_dispatcher_branches "t0" ⟨"1", "X", "r", "g", "cron", "", false⟩).2.2 rfl (by decide)).1

/-- C6 counterexample: an agent whose goal contains "trending" but whose name
does not is classified generic (the dispatcher passes only `agent.name` to
`detectAgentType`), not trending as the claim requires: the stored preview
carries the [Agent] marker, not [Trending Agent]. -/
theorem C6_counterexample :
    detectAgentType (some "watch trending topics") = "trending"
  ∧ detectAgentType (some "Y") = "generic"
  ∧ (handleRun "t0" ⟨"7", "Y", "", "watch trending topics", "browser", "", false⟩).approvals =
      [⟨"7", "agent_execution", "[Agent] Y: watch trending topics"⟩]
  ∧ ("[Agent] Y: watch trending topics" : String) ≠ "[Trending Agent] Y: watch trending topics" := by
  decide

/-- C6 (amended): a dispatched non-sandbox browser agent is classified by
matching only its NAME against the vocabulary (the goal text is ignored by
the classification); the resulting preview string is stored in the approval
request, whose persisted item starts pending. -/
theorem C6_name_only_classification (now : String) (a : Agent) (g : String)
    (hsb : a.sandbox = false) (hbr : strIncludes a.tools "browser" = true) :
    (handleRun now a).approvals =
      [⟨a.id, "agent_execution",
        (if detectAgentType (some a.name) == "trending" then "[Trending Agent]"
         else if detectAgentType (some a.name) == "hashtag" then "[Hashtag Agent]"
         else "[Agent]") ++ " " ++ a.name ++ ": " ++ a.goal⟩]
  ∧ (∀ req ∈ (handleRun now a).approvals, ∀ n, (mkApprovalItem n req).status = "pending")
  ∧ detectAgentType (some ({ a with goal := g }).name) = detectAgentType (some a.name) := by
  refine ⟨?_, fun req _ n => rfl, rfl⟩
  simp only [handleRun]
  rw [if_neg (by rw [hsb]; exact Bool.false_ne_true), if_pos hbr]

theorem C6_name_only_classification_witness :
    (handleRun "t0" ⟨"9", "Trending Topics Agent", "Content Creator", "post daily",
        "browser,cron", "0 9 * * *", false⟩).approvals =
      [⟨"9", "agent_execution", "[Trending Agent] Trending Topics Agent: post daily"⟩] := by
  have h := (C6_name_only_classification "t0"
      ⟨"9", "Trending Topics Agent", "Content Creator", "post daily",
       "browser,cron", "0 9 * * *", false⟩ "" rfl (by decide)).1
  rw [h]
  decide

/-- C10: `detectAgentType` is total over absent and present text, always
returns one of the three type strings, gives "trending" priority whenever the
lower-cased text matches the trending vocabulary (even if the hashtag
vocabulary also matches), and yields "generic" when nothing matches,
including for null/undefined (`none`) and the empty string. -/
theorem C10_detectAgentType_total (t : Option String) :
    (detectAgentType t = "trending" ∨ detectAgentType t = "hashtag" ∨
     detectAgentType t = "generic")
  ∧ (strIncludes (jsToLower (t.getD "")) "trending" = true → detectAgentType t = "trending")
  ∧ (strIncludes (jsToLower (t.getD "")) "trending" = false →
     strIncludes (jsToLower (t.getD "")) "hashtag" = false →
     strIncludes (jsToLower (t.getD "")) "#openclaw" = false →
     detectAgentType t = "generic")
  ∧ detectAgentType none = "generic"
  ∧ detectAgentType (some "") = "generic" := by
  refine ⟨?_, ?_, ?_, by decide, by decide⟩
  · simp only [detectAgentType]
    by_cases h1 : strIncludes (jsToLower (t.getD "")) "trending" = true
    · rw [if_pos h1]
      exact Or.inl rfl
    · rw [if_neg h1]
      by_cases h2 : (strIncludes (jsToLower (t.getD "")) "hashtag" ||
          strIncludes (jsToLower (t.getD "")) "#openclaw") = true
      · rw [if_pos h2]
        exact Or.inr (Or.inl rfl)
      · rw [if_neg h2]
        exact Or.inr (Or.inr rfl)
  · intro h
    simp only [detectAgentType]
    rw [if_pos h]
  · intro h1 h2 h3
    simp only [detectAgentType]
    rw [if_neg (by rw [h1]; exact Bool.false_ne_true), if_neg (by simp [h2, h3])]

theorem C10_detectAgentType_total_witness :
    detectAgentType (some "Trending #openclaw hashtag") = "trending" :=
  (C10_detectAgentType_total (some "Trending #openclaw hashtag")).2.1 (by decide)

/-- C5 counterexample: when `createAgent` throws during conversational
confirmation, the catch branch of `_localInference` rule 3 returns the error
reply without clearing `_lastSuggestedAgent`, so the drafted agent is NOT
cleared, contrary to the claim. -/
theorem C5_counterexample :
    (localInference ⟨⟨"linux", Except.ok true, Except.ok true, Except.ok (), Except.ok ()⟩,
        Except.error "db down"⟩
      ⟨"local", none, none, [], false, some trendingTemplate⟩ "yes").state.lastSuggestedAgent =
      some trendingTemplate
  ∧ some trendingTemplate ≠ (none : Option Agent) := by
  decide

/-- C5 (amended): if `createAgent` throws during conversational confirmation,
the engine returns an assistant message naming the failure, but the entire
state — in particular `draftedAgent` — is left unchanged, so a subsequent
identical confirmation message re-attempts the same draft (and succeeds once
the store recovers). -/
theorem C5_create_failure_keeps_draft (env : LocalEnv) (s : LLMState) (message e : String)
    (a : Agent)
    (hps : s.pendingSetup = false)
    (hsetup : setupReqMatch (jsTrim (jsToLower message)) = false)
    (hdraft : s.lastSuggestedAgent = some a)
    (hconf : confirmMatch (jsTrim (jsToLower message)) = true)
    (herr : env.createRes = Except.error e) :
    (localInference env s message).reply =
      "❌ Failed to create agent: " ++ e ++ ". Please try again or use the Agents tab directly."
  ∧ strIncludes (localInference env s message).reply e = true
  ∧ (localInference env s message).state = s
  ∧ (localInference env s message).logs = []
  ∧ (localInference env s message).approvals = []
  ∧ (localInference env s message).agents = []
  ∧ (localInference { env with createRes := Except.ok () } s message).agents = [a] := by
  have h1 : (s.pendingSetup && affirmMatch (jsTrim (jsToLower message))) = false := by
    rw [hps, Bool.false_and]
  have heq := localInference_confirm_err env s message e a h1 hsetup hdraft hconf herr
  have heqok := localInference_confirm_ok { env with createRes := Except.ok () } s message a
    h1 hsetup hdraft hconf rfl
  rw [heq, heqok]
  refine ⟨rfl, ?_, rfl, rfl, rfl, rfl, rfl⟩
  exact strIncludes_extend _ _ _ (strIncludes_append_right _ _)

theorem C5_create_failure_keeps_draft_witness :
    (localInference ⟨⟨"linux", Except.ok true, Except.ok true, Except.ok (), Except.ok ()⟩,
        Except.error "db down"⟩
      ⟨"local", none, none, [], false, some trendingTemplate⟩ "yes").reply =
      "❌ Failed to create agent: " ++ "db down" ++
        ". Please try again or use the Agents tab directly." :=
  (C5_create_failure_keeps_draft
      ⟨⟨"linux", Except.ok true, Except.ok true, Except.ok (), Except.ok ()⟩,
       Except.error "db down"⟩
      ⟨"local", none, none, [], false, some trendingTemplate⟩ "yes" "db down" trendingTemplate
      rfl (by decide) rfl (by decide) rfl).1

theorem handleApproval_err (items : List ApprovalItem) (id : Nat) (st now e : String) :
    handleApproval items id st (Except.error e) now = (items, []) := rfl

theorem handleApproval_ok_fst (items : List ApprovalItem) (id : Nat) (st now : String) :
    (handleApproval items id st (Except.ok ()) now).1 = updateApproval items id st := by
  simp only [handleApproval]
  by_cases h : (st == "approved") = true
  · rw [if_pos h]
  · rw [if_neg h]

/-- C3: resolving an ApprovalItem performs the persisted status update before
any LogEntry is written — if the update throws, the handler catches it and no
log is written and the store is untouched; on approved, exactly one new
LogEntry is written, with status success and attributed to the item's
agent identifier with fallback "system" when the item or its agent id is
absent/empty; on rejected, exactly one info LogEntry containing the original
content preview. -/
theorem C3_approval_resolution (items : List ApprovalItem) (id : Nat) (st now e : String) :
    handleApproval items id st (Except.error e) now = (items, [])
  ∧ (handleApproval items id st (Except.ok ()) now).1 = updateApproval items id st
  ∧ ((handleApproval items id "approved" (Except.ok ()) now).2.length = 1
     ∧ ∀ l ∈ (handleApproval items id "approved" (Except.ok ()) now).2,
         l.status = "success" ∧
         l.agent_id =
           jsOrStr ((items.find? (fun a => a.id == id)).map (fun a => a.agent_id)) "system")
  ∧ (handleApproval items id "rejected" (Except.ok ()) now).2 =
      [⟨jsOrStr ((items.find? (fun a => a.id == id)).map (fun a => a.agent_id)) "system",
        "Approval rejected — action skipped", "info",
        "Action was reviewed and rejected by user.\nOriginal request: " ++
          jsOrStr ((items.find? (fun a => a.id == id)).map (fun a => a.content_preview)) "", ""⟩]
  ∧ (∀ p : String,
      strIncludes ("Action was reviewed and rejected by user.\nOriginal request: " ++ p) p = true)
  ∧ jsOrStr none "system" = "system" := by
  refine ⟨rfl, handleApproval_ok_fst items id st now, ⟨?_, ?_⟩, ?_, ?_, rfl⟩
  · simp only [handleApproval]
    rw [if_pos (show (("approved" : String) == "approved") = true from by decide)]
    rfl
  · intro l hl
    simp only [handleApproval] at hl
    rw [if_pos (show (("approved" : String) == "approved") = true from by decide)] at hl
    simp only [List.mem_singleton] at hl
    rw [hl]
    exact ⟨rfl, rfl⟩
  · simp only [handleApproval]
    rw [if_neg (show ¬(("rejected" : String) == "approved") = true from by decide)]
  · intro p
    exact strIncludes_append_right _ _

theorem C3_approval_resolution_witness :
    (⟨"agentY", "Approved & Executed", "success",
       buildGenericOutput "t0" "[Agent] Y: g", ""⟩ : LogEntry).status = "success"
  ∧ (⟨"agentY", "Approved & Executed", "success",
       buildGenericOutput "t0" "[Agent] Y: g", ""⟩ : LogEntry).agent_id =
      jsOrStr ((([⟨0, "agentY", "agent_execution", "[Agent] Y: g", "pending"⟩] :
          List ApprovalItem).find? (fun a => a.id == 0)).map (fun a => a.agent_id)) "system" :=
  (C3_approval_resolution [⟨0, "agentY", "agent_execution", "[Agent] Y: g", "pending"⟩]
      0 "x" "t0" "db").2.2.1.2
    ⟨"agentY", "Approved & Executed", "success", buildGenericOutput "t0" "[Agent] Y: g", ""⟩
    (by decide)

theorem updateApproval_mem (items : List ApprovalItem) (id : Nat) (st : String)
    (it : ApprovalItem) (hit : it ∈ items) (hne : it.id ≠ id) :
    it ∈ updateApproval items id st := by
  refine List.mem_map.mpr ⟨it, hit, ?_⟩
  rw [if_neg (fun hbeq => hne (eq_of_beq hbeq))]

theorem QWF_init : QWF ([], 0) :=
  ⟨fun it h => absurd h (List.not_mem_nil it), List.Pairwise.nil,
   fun it h => absurd h (List.not_mem_nil it)⟩

theorem QWF_step {s t : List ApprovalItem × Nat} (hwf : QWF s) (hstep : QStep s t) : QWF t := by
  obtain ⟨hids, hpw, hst⟩ := hwf
  cases hstep with
  | enqueue items n req =>
    refine ⟨?_, ?_, ?_⟩
    · intro it hit
      rcases List.mem_append.mp hit with h | h
      · exact Nat.lt_trans (hids it h) (Nat.lt_succ_self n)
      · rw [List.mem_singleton.mp h]
        exact Nat.lt_succ_self n
    · refine List.pairwise_append.mpr ⟨hpw, List.pairwise_singleton _ _, ?_⟩
      intro a ha b hb
      rw [List.mem_singleton.mp hb]
      exact Nat.ne_of_lt (hids a ha)
    · intro it hit
      rcases List.mem_append.mp hit with h | h
      · exact hst it h
      · rw [List.mem_singleton.mp h]
        exact Or.inl rfl
  | resolve items n item status now hmem hctl hstA =>
    rw [handleApproval_ok_fst]
    refine ⟨?_, ?_, ?_⟩
    · intro it hit
      rcases List.mem_map.mp hit with ⟨b, hb, hfb⟩
      have hbid : it.id = b.id := by
        rw [← hfb]
        split <;> rfl
      rw [hbid]
      exact hids b hb
    · refine List.Pairwise.map _ ?_ hpw
      intro a b hab
      have ha : (if a.id == item.id then { a with status := status } else a).id = a.id := by
        split <;> rfl
      have hb : (if b.id == item.id then { b with status := status } else b).id = b.id := by
        split <;> rfl
      rw [ha, hb]
      exact hab
    · intro it hit
      rcases List.mem_map.mp hit with ⟨b, hb, hfb⟩
      rw [← hfb]
      split
      · rcases hstA with h | h
        · rw [h]
          exact Or.inr (Or.inl rfl)
        · rw [h]
          exact Or.inr (Or.inr rfl)
      · exact hst b hb
  | resolveFail items n item status now e hmem hctl hstA =>
    exact ⟨hids, hpw, hst⟩

theorem QWF_star {s t : List ApprovalItem × Nat} (hwf : QWF s)
    (h : Relation.ReflTransGen QStep s t) : QWF t := by
  induction h with
  | refl => exact hwf
  | tail hab hbc ih => exact QWF_step ih hbc

theorem terminal_step {s t : List ApprovalItem × Nat} (hwf : QWF s) (hstep : QStep s t)
    (it : ApprovalItem) (hit : it ∈ s.1) (hterm : it.status ≠ "pending") : it ∈ t.1 := by
  obtain ⟨hids, hpw, hst⟩ := hwf
  cases hstep with
  | enqueue items n req =>
    exact List.mem_append.mpr (Or.inl hit)
  | resolve items n item status now hmem hctl hstA =>
    rw [handleApproval_ok_fst]
    have hpend : item.status = "pending" := eq_of_beq hctl
    have hne : item ≠ it := fun hcontra => hterm (by rw [← hcontra, hpend])
    have hsymm : Symmetric (fun (a b : ApprovalItem) => a.id ≠ b.id) :=
      fun a b h => Ne.symm h
    have hidne : item.id ≠ it.id := List.Pairwise.forall hsymm hpw hmem hit hne
    exact updateApproval_mem items item.id status it hit (fun h => hidne h.symm)
  | resolveFail items n item status now e hmem hctl hstA =>
    exact hit

theorem terminal_star {s t : List ApprovalItem × Nat} (hwf : QWF s)
    (h : Relation.ReflTransGen QStep s t)
    (it : ApprovalItem) (hit : it ∈ s.1) (hterm : it.status ≠ "pending") : it ∈ t.1 := by
  induction h with
  | refl => exact hit
  | tail hab hbc ih => exact terminal_step (QWF_star hwf hab) hbc it ih hterm

/-- C4: over every reachable approval store, items are created pending
(`mkApprovalItem`), a resolution step is only possible through a rendered
control, i.e. while the item is pending, and once an item is terminal
(approved/rejected) it persists unchanged through every later step: it is
never again counted among the pending items (`pendingCount` filters on
pending) and its Approve/Reject controls are not rendered. -/
theorem C4_approval_lifecycle (s₁ s₂ : List ApprovalItem × Nat)
    (h01 : Relation.ReflTransGen QStep ([], 0) s₁)
    (h12 : Relation.ReflTransGen QStep s₁ s₂)
    (it : ApprovalItem) (hit : it ∈ s₁.1) (hterm : it.status ≠ "pending") :
    (∀ (n : Nat) (req : ApprovalReq), (mkApprovalItem n req).status = "pending")
  ∧ (it.status = "approved" ∨ it.status = "rejected")
  ∧ it ∈ s₂.1
  ∧ showsResolutionControls it = false
  ∧ it ∉ s₂.1.filter (fun a => a.status == "pending")
  ∧ pendingCount s₂.1 = (s₂.1.filter (fun a => a.status == "pending")).length := by
  have hwf₁ : QWF s₁ := QWF_star QWF_init h01
  have hmem₂ : it ∈ s₂.1 := terminal_star hwf₁ h12 it hit hterm
  refine ⟨fun n req => rfl, ?_, hmem₂, ?_, ?_, rfl⟩
  · rcases hwf₁.2.2 it hit with h | h | h
    · exact absurd h hterm
    · exact Or.inl h
    · exact Or.inr h
  · simp only [showsResolutionControls]
    cases hb : it.status == "pending"
    · rfl
    · exact absurd (eq_of_beq hb) hterm
  · intro hmemf
    exact hterm (eq_of_beq (List.mem_filter.mp hmemf).2)

theorem C4_approval_lifecycle_witness :
    (⟨0, "agentY", "agent_execution", "p", "approved"⟩ : ApprovalItem) ∈
      (handleApproval [mkApprovalItem 0 ⟨"agentY", "agent_execution", "p"⟩] 0 "approved"
        (Except.ok ()) "t0").1
  ∧ showsResolutionControls (⟨0, "agentY", "agent_execution", "p", "approved"⟩ : ApprovalItem) =
      false := by
  have step1 : QStep ([], 0) ([mkApprovalItem 0 ⟨"agentY", "agent_execution", "p"⟩], 1) :=
    QStep.enqueue [] 0 ⟨"agentY", "agent_execution", "p"⟩
  have step2 : QStep ([mkApprovalItem 0 ⟨"agentY", "agent_execution", "p"⟩], 1)
      ((handleApproval [mkApprovalItem 0 ⟨"agentY", "agent_execution", "p"⟩]
        (mkApprovalItem 0 ⟨"agentY", "agent_execution", "p"⟩).id "approved"
        (Except.ok ()) "t0").1, 1) :=
    QStep.resolve [mkApprovalItem 0 ⟨"agentY", "agent_execution", "p"⟩] 1
      (mkApprovalItem 0 ⟨"agentY", "agent_execution", "p"⟩) "approved" "t0"
      (List.mem_singleton.mpr rfl) (by decide) (Or.inl rfl)
  have h := C4_approval_lifecycle
      ((handleApproval [mkApprovalItem 0 ⟨"agentY", "agent_execution", "p"⟩] 0 "approved"
        (Except.ok ()) "t0").1, 1)
      ((handleApproval [mkApprovalItem 0 ⟨"agentY", "agent_execution", "p"⟩] 0 "approved"
        (Except.ok ()) "t0").1, 1)
      (Relation.ReflTransGen.tail (Relation.ReflTransGen.tail Relation.ReflTransGen.refl step1)
        step2)
      Relation.ReflTransGen.refl
      ⟨0, "agentY", "agent_execution", "p", "approved"⟩ (by decide) (by decide)
  exact ⟨h.2.2.1, h.2.2.2.1⟩
